import Mathlib

/-!
# Verification of the CPify (Pypify) media-library player core

Shallow embedding of the core of `src/main.py`: portable path
resolution/serialization, the media asset cache (`Song.ensure_assets`),
the playback clock, and the transport controller (play/pause/seek/stop,
shuffle queue, end-of-track transitions).

Modelling conventions:
* Filesystem paths are lists of components; absolute paths carry no anchor.
  `Path.expanduser` and `Path.resolve(strict=False)` are modelled as the
  identity on already-normalized, `~`-free paths.
* The filesystem is an explicit existence predicate `List String → Bool`.
* Times, positions and durations (Python floats) are modelled as rationals.
* `random.shuffle` is modelled by passing the shuffled list as an oracle
  argument; theorems quantify over all permutations of the input.
* The pygame audio device is modelled by `MixerState` (busy flag, whether
  the end-of-track event is enabled, and the count of end-of-track events
  sitting in the event queue).  A fallible device load/play is modelled by
  a `load_ok` flag selecting the success path or the caught-error path.
-/

namespace CPify

/-! ## PathResolver (`resolve_media_path`, `_serialize_media_path`) -/

/-- The roots from which the module-level path constants of `main.py` are
built: `DATA_ROOT` (the library root) and `APP_ROOT` (the install root). -/
structure PathConfig where
  dataRoot : List String
  appRoot : List String
deriving DecidableEq, Repr

/-- `SONGS_DIR = DATA_ROOT / "songs"`. -/
def SONGS_DIR (cfg : PathConfig) : List String := cfg.dataRoot ++ ["songs"]

/-- `DEFAULT_SONGS_DIR = APP_ROOT / "songs"`. -/
def DEFAULT_SONGS_DIR (cfg : PathConfig) : List String := cfg.appRoot ++ ["songs"]

/-- `DATA_PATH = DATA_ROOT / "song_data.json"`: the song list document,
kept directly in the library root. -/
def DATA_PATH (cfg : PathConfig) : List String := cfg.dataRoot ++ ["song_data.json"]

/-- `CACHE_DIR = DATA_ROOT / ".cache"`: the derived-artifact cache,
kept directly in the library root. -/
def CACHE_DIR (cfg : PathConfig) : List String := cfg.dataRoot ++ [".cache"]

/-- Python `str.lower()` (ASCII-faithful), written at character-list level so
that it evaluates by kernel reduction. -/
def pyLower (s : String) : String := String.mk (s.data.map Char.toLower)

/-- Python `str.strip()` with no argument: drop whitespace from both ends. -/
def pyStrip (s : String) : String :=
  String.mk (((s.data.dropWhile Char.isWhitespace).reverse.dropWhile Char.isWhitespace).reverse)

/-- A Python `pathlib.Path` value: absolute or relative, as components. -/
inductive PyPath where
  | abs (parts : List String)
  | rel (parts : List String)
deriving DecidableEq, Repr

/-- Whether `str(path_value).strip()` is empty for the string that parsed to
this path.  The empty string parses to `rel []`; a relative path with a single
all-whitespace component comes from an all-whitespace string; any string whose
path has two or more components, or is absolute, contains a separator or
anchor and never strips to empty. -/
def strBlank : PyPath → Bool
  | .abs _ => false
  | .rel [] => true
  | .rel [c] => pyStrip c = ""
  | .rel (_ :: _ :: _) => false

/-- `raw.name`: the final path component, `""` when there is none. -/
def pyName : PyPath → String
  | .abs parts => (parts.getLast?).getD ""
  | .rel parts => (parts.getLast?).getD ""

/-- `add_candidate`: append a candidate unless an equal one was already seen
(the `seen` set of `resolve_media_path`, keyed by the path string). -/
def addCandidate (acc : List (List String)) (c : List String) : List (List String) :=
  if c ∈ acc then acc else acc ++ [c]

/-- The candidate `search_order` list built by `resolve_media_path`. -/
def searchOrder (cfg : PathConfig) (ref : PyPath) : List (List String) :=
  if strBlank ref then
    addCandidate [] (SONGS_DIR cfg)
  else
    let base :=
      match ref with
      | .abs parts => addCandidate [] parts
      | .rel parts =>
        let l1 := addCandidate [] (SONGS_DIR cfg ++ parts)
        let l2 :=
          match parts with
          | p0 :: rest =>
            if pyLower p0 = "songs" ∧ rest ≠ [] then addCandidate l1 (SONGS_DIR cfg ++ rest)
            else l1
          | [] => l1
        let l3 := addCandidate l2 (cfg.appRoot ++ parts)
        addCandidate l3 (DEFAULT_SONGS_DIR cfg ++ parts)
    let nm := pyName ref
    if nm ≠ "" then
      addCandidate (addCandidate base (SONGS_DIR cfg ++ [nm])) (DEFAULT_SONGS_DIR cfg ++ [nm])
    else base

/-- `resolve_media_path`: first existing candidate, else the best-effort
fallback (the absolute reference as given, or `SONGS_DIR / name`, or
`SONGS_DIR`). -/
def resolve_media_path (fs : List String → Bool) (cfg : PathConfig) (ref : PyPath) :
    List String :=
  match (searchOrder cfg ref).find? fs with
  | some c => c
  | none =>
    match ref with
    | .abs parts => parts
    | .rel _ =>
      let nm := pyName ref
      if nm ≠ "" then SONGS_DIR cfg ++ [nm] else SONGS_DIR cfg

/-- `_serialize_media_path`: a path under `SONGS_DIR` becomes the relative
reference `songs / relative`; anything else is stored absolute. -/
def _serialize_media_path (cfg : PathConfig) (p : List String) : PyPath :=
  if (SONGS_DIR cfg).isPrefixOf p then
    .rel ("songs" :: p.drop (SONGS_DIR cfg).length)
  else .abs p

/-! ## MediaAssetCache (`Song.ensure_assets`)

The on-disk and in-object state that `ensure_assets` reads and writes,
plus instrumentation counters (`decodes`, `thumb_writes`, `audio_writes`)
counting the externally visible decode/write effects. -/

structure AssetState where
  thumb_exists : Bool
  audio_exists : Bool
  duration : ℚ
  assets_prepared : Bool
  decodes : ℕ
  thumb_writes : ℕ
  audio_writes : ℕ
deriving DecidableEq, Repr

/-- Outcome of `ensure_assets`: normal return, or the
`RuntimeError("No audio track found in ...")` raise.  Python mutates the
`Song` in place, so the raising outcome still carries the mutated state. -/
inductive AssetOutcome where
  | ok (st : AssetState)
  | noAudioTrack (st : AssetState)
deriving DecidableEq, Repr

/-- `Song.ensure_assets`, parameterized by what the decoder would report for
the source video: its duration and whether it has an audio stream.  The
representative `frame_time` computation is position arithmetic only and does
not alter state, so it is not carried in `AssetState`. -/
def ensure_assets (clipDuration : ℚ) (hasAudio : Bool) (st : AssetState) : AssetOutcome :=
  let needs_thumb := !st.thumb_exists
  let needs_audio := !st.audio_exists
  let force_thumb_refresh := !st.assets_prepared
  if !needs_thumb && !needs_audio && !force_thumb_refresh && decide (st.duration > 0) then
    .ok st
  else
    let st1 := { st with decodes := st.decodes + 1, duration := clipDuration }
    let st2 :=
      if needs_thumb || force_thumb_refresh then
        { st1 with thumb_exists := true, thumb_writes := st1.thumb_writes + 1 }
      else st1
    if needs_audio && !hasAudio then
      .noAudioTrack st2
    else
      let st3 :=
        if needs_audio then
          { st2 with audio_exists := true, audio_writes := st2.audio_writes + 1 }
        else st2
      let st4 := if st3.duration ≤ 0 then { st3 with duration := 1 } else st3
      .ok { st4 with assets_prepared := true }

/-! ## Data model: Song and the transport state

`Song` carries the fields of the `Song` dataclass that the transport logic
reads and compares: Python dataclass equality is field-wise, so Lean
structural equality is the faithful abstraction.  Derived cache locations,
pygame surfaces and the mutable asset fields tracked by `AssetState` are
not needed by the transport claims. -/

structure Song where
  name : String
  artist : String
  video_path : List String
  loop_enabled : Bool
  duration : ℚ
deriving DecidableEq, Repr

/-- The audio output device (`pygame.mixer.music`) together with the event
queue, as far as the transport logic observes it: whether music is actively
playing (`get_busy`; `False` when stopped or paused), whether the
end-of-track event is currently set (`set_endevent`), and how many
`MUSIC_END_EVENT`s sit undelivered in the event queue. -/
structure MixerState where
  busy : Bool
  end_event_enabled : Bool
  pending_end : ℕ
deriving DecidableEq, Repr

/-- `pygame.mixer.music.set_endevent()` with no argument: disable. -/
def mixerDisableEndEvent (m : MixerState) : MixerState :=
  { m with end_event_enabled := false }

/-- `pygame.mixer.music.stop()`: posts the end event (if one is set and music
is playing) and stops playback. -/
def mixerStop (m : MixerState) : MixerState :=
  if m.busy && m.end_event_enabled then
    { m with busy := false, pending_end := m.pending_end + 1 }
  else { m with busy := false }

/-- `pygame.event.clear(MUSIC_END_EVENT)`: drop queued end events. -/
def mixerClearEndEvents (m : MixerState) : MixerState := { m with pending_end := 0 }

/-- `pygame.mixer.music.set_endevent(MUSIC_END_EVENT)`: enable. -/
def mixerEnableEndEvent (m : MixerState) : MixerState :=
  { m with end_event_enabled := true }

/-- `pygame.mixer.music.play(...)`. -/
def mixerPlay (m : MixerState) : MixerState := { m with busy := true }

/-- `pygame.mixer.music.pause()` (`get_busy` reports `False` while paused). -/
def mixerPause (m : MixerState) : MixerState := { m with busy := false }

/-- `PAGE_SIZE`. -/
def PAGE_SIZE : ℕ := 5

/-- The `PypifyApp` state read and written by the transport controller.
Wall-clock ticks (`pygame.time.get_ticks()`, milliseconds) are rationals
passed in as `now` where the code reads the clock.  Rendering state
(cards, fonts, drag flags, form state) is out of scope. -/
structure AppState where
  songs : List Song
  filtered_songs : List Song
  visible_song_limit : ℕ
  search_query : String
  current_song : Option Song
  is_paused : Bool
  play_start_ticks : ℚ
  play_start_position : ℚ
  shuffle_active : Bool
  shuffle_queue : List Song
  suppress_end_event : Bool
  mixer : MixerState
  video_loaded : Option Song
  video_fullscreen : Bool
deriving DecidableEq, Repr

/-! ## PlaybackClock -/

/-- `PypifyApp._current_playback_time`. -/
def _current_playback_time (st : AppState) (now : ℚ) : ℚ :=
  match st.current_song with
  | none => 0
  | some s =>
    if st.is_paused then min st.play_start_position s.duration
    else
      let elapsed := (now - st.play_start_ticks) / 1000
      min s.duration (st.play_start_position + elapsed)

/-- `PypifyApp._clamp_song_position`. -/
def _clamp_song_position (song : Song) (position : ℚ) : ℚ :=
  if song.duration ≤ 0 then 0
  else
    let upper_bound := max 0 (song.duration - 5 / 100)
    max 0 (min position upper_bound)

/-! ## TransportController -/

/-- `PypifyApp._search_base`: the search-filtered subsequence of the library
(`query in song.search_key`, a case-folded substring test). -/
def _search_base (st : AppState) : List Song :=
  let query := pyStrip (pyLower st.search_query)
  if query = "" then st.songs
  else st.songs.filter (fun song => decide (query.data <:+: (pyLower song.name).data))

/-- `PypifyApp._apply_search` (display-list refresh and asset preparation for
visible songs are rendering-side effects, not carried in `AppState`). -/
def _apply_search (st : AppState) (reset_visible : Bool) : AppState :=
  let base := _search_base st
  let st1 := { st with shuffle_active := false, shuffle_queue := [], filtered_songs := base }
  let newLimit :=
    if reset_visible || st1.visible_song_limit = 0 then
      if base ≠ [] then min PAGE_SIZE base.length else 0
    else min (max st1.visible_song_limit PAGE_SIZE) base.length
  { st1 with visible_song_limit := newLimit }

/-- `PypifyApp._ensure_song_visible`. -/
def _ensure_song_visible (st : AppState) (song : Song) : AppState :=
  if song ∈ st.filtered_songs then
    let index := st.filtered_songs.indexOf song
    if index < st.visible_song_limit then st
    else
      let newLimit := index + 1
      let remainder := newLimit % PAGE_SIZE
      let newLimit := if remainder ≠ 0 then newLimit + (PAGE_SIZE - remainder) else newLimit
      { st with visible_song_limit := min newLimit st.filtered_songs.length }
  else st

/-- The device-reset block shared by `_start_song` and `stop_song`: raise the
suppression flag if music is busy, disable the end event, stop, clear queued
end events, re-enable the end event.  (With the end event disabled the
`stop()` posts nothing, and the clear empties whatever was queued before.) -/
def resetAudioDevice (st : AppState) : AppState :=
  { st with
      suppress_end_event := st.suppress_end_event || st.mixer.busy,
      mixer := mixerEnableEndEvent (mixerClearEndEvents (mixerStop (mixerDisableEndEvent st.mixer))) }

/-- `PypifyApp._start_song`.  The on-demand `ensure_assets` call is modelled
as the audio derivative being already materialized; `load_ok` selects the
success path versus the caught `pygame.error` early return (where the raised
suppression flag is left as is).  The video-session load is modelled as
succeeding, and the `finally` clears the suppression flag. -/
def _start_song (st : AppState) (song : Song) (start_position : ℚ)
    (play_immediately : Bool) (now : ℚ) (load_ok : Bool) : AppState :=
  let clamped_position := _clamp_song_position song start_position
  let st1 := resetAudioDevice st
  if !load_ok then st1
  else
    let m2 := if play_immediately then mixerPlay st1.mixer else mixerPause (mixerPlay st1.mixer)
    let queue1 :=
      if song ∈ st1.shuffle_queue then st1.shuffle_queue.filter (fun item => item ≠ song)
      else st1.shuffle_queue
    { st1 with
      mixer := m2
      current_song := some song
      play_start_position := clamped_position
      play_start_ticks := now
      is_paused := !play_immediately
      shuffle_queue := queue1
      video_loaded := some song
      suppress_end_event := false }

/-- `PypifyApp.seek_song`. -/
def seek_song (st : AppState) (song : Song) (r : ℚ) (now : ℚ) (load_ok : Bool) : AppState :=
  let r := max 0 (min 1 r)
  let target_position := r * (if song.duration > 0 then song.duration else 0)
  let st1 :=
    if st.current_song ≠ some song then
      { st with shuffle_active := false, shuffle_queue := [] }
    else st
  let was_paused := if st1.current_song = some song then st1.is_paused else false
  _start_song st1 song target_position (!was_paused) now load_ok

/-- `PypifyApp.play_song`. -/
def play_song (st : AppState) (song : Song) (preserve_queue : Bool) (now : ℚ)
    (load_ok : Bool) : AppState :=
  let st1 :=
    if !preserve_queue then { st with shuffle_active := false, shuffle_queue := [] }
    else st
  let st2 := _ensure_song_visible st1 song
  _start_song st2 song 0 true now load_ok

/-- `PypifyApp._toggle_song_pause`. -/
def _toggle_song_pause (st : AppState) (song : Song) (now : ℚ) (load_ok : Bool) : AppState :=
  if st.current_song ≠ some song then
    play_song { st with shuffle_active := false, shuffle_queue := [] } song false now load_ok
  else if st.is_paused then
    { st with mixer := mixerPlay st.mixer, play_start_ticks := now, is_paused := false }
  else
    let elapsed := (now - st.play_start_ticks) / 1000
    { st with
        play_start_position := min song.duration (st.play_start_position + elapsed)
        mixer := mixerPause st.mixer
        is_paused := true }

/-- `PypifyApp.stop_song`. -/
def stop_song (st : AppState) : AppState :=
  { resetAudioDevice st with
      is_paused := false
      current_song := none
      play_start_ticks := 0
      play_start_position := 0
      shuffle_active := false
      shuffle_queue := []
      video_loaded := none
      video_fullscreen := false
      suppress_end_event := false }

/-- `PypifyApp.start_shuffle`.  `shuffled` is the output of
`random.shuffle(order)`; theorems about this definition require it to be a
permutation of `_search_base st`. -/
def start_shuffle (st : AppState) (shuffled : List Song) (now : ℚ) (load_ok : Bool) :
    AppState :=
  if _search_base st = [] then st
  else
    match shuffled with
    | [] => st
    | first :: rest =>
      let st1 :=
        { st with
            shuffle_active := true
            shuffle_queue := rest
            filtered_songs := first :: rest
            visible_song_limit := min PAGE_SIZE (first :: rest).length }
      play_song st1 first true now load_ok

/-- `PypifyApp.play_next_song`. -/
def play_next_song (st : AppState) (now : ℚ) (load_ok : Bool) : AppState :=
  match st.filtered_songs with
  | [] => stop_song st
  | first :: _ =>
    match st.current_song with
    | none => play_song st first true now load_ok
    | some cur =>
      if cur ∈ st.filtered_songs then
        let idx := st.filtered_songs.indexOf cur
        let next_idx := idx + 1
        if st.filtered_songs.length ≤ next_idx then
          if !st.shuffle_active then stop_song st
          else play_song st first true now load_ok
        else
          match st.filtered_songs[next_idx]? with
          | some next => play_song st next true now load_ok
          | none => stop_song st
      else play_song st first true now load_ok

/-- The tail of `_handle_song_end` after the suppression and loop branches:
shuffle-queue pop, shuffle deactivation, sequential advance. -/
def handleSongEndQueue (st : AppState) (now : ℚ) (load_ok : Bool) : AppState :=
  match st.shuffle_queue with
  | next :: rest => play_song { st with shuffle_queue := rest } next true now load_ok
  | [] =>
    let st1 :=
      if st.shuffle_active then _apply_search { st with shuffle_active := false } false
      else st
    play_next_song st1 now load_ok

/-- `PypifyApp._handle_song_end`. -/
def _handle_song_end (st : AppState) (now : ℚ) (load_ok : Bool) : AppState :=
  if st.suppress_end_event then { st with suppress_end_event := false }
  else
    match st.current_song with
    | some s =>
      if s.loop_enabled then play_song st s true now load_ok
      else handleSongEndQueue st now load_ok
    | none => handleSongEndQueue st now load_ok

/-! ## Concrete fixtures for witnesses and counterexamples -/

/-- A concrete path configuration: library root `data`, install root `app`. -/
def cfg0 : PathConfig := ⟨["data"], ["app"]⟩

/-- A media file inside the songs directory of the library root. -/
def pNested : List String := ["data", "songs", "sub", "x.mp4"]

/-- The higher-priority shadow candidate for `pNested`'s stored reference. -/
def pShadow : List String := ["data", "songs", "songs", "sub", "x.mp4"]

/-- A filesystem on which both `pNested` and its shadow exist. -/
def fsShadow : List String → Bool := fun l => l = pNested || l = pShadow

/-- A filesystem on which exactly `pNested` exists. -/
def fsOnly : List String → Bool := fun l => l = pNested

def songA : Song := ⟨"Alpha", "Art", ["data", "songs", "a.mp4"], false, 10⟩
def songB : Song := ⟨"Beta", "Art", ["data", "songs", "b.mp4"], false, 10⟩
def songC : Song := ⟨"Gamma", "Art", ["data", "songs", "c.mp4"], false, 10⟩

/-- A song whose measured duration is positive but below the 0.05 s guard. -/
def songTiny : Song := ⟨"Tiny", "Art", ["data", "songs", "t.mp4"], false, 1 / 100⟩

/-- A transport state playing `songB` out of the library `[A, B, C]`. -/
def stPlaying : AppState :=
  { songs := [songA, songB, songC]
    filtered_songs := [songA, songB, songC]
    visible_song_limit := 3
    search_query := ""
    current_song := some songB
    is_paused := false
    play_start_ticks := 0
    play_start_position := 0
    shuffle_active := false
    shuffle_queue := []
    suppress_end_event := false
    mixer := ⟨true, true, 0⟩
    video_loaded := some songB
    video_fullscreen := false }

/-- A fresh asset state: nothing materialized yet. -/
def asset0 : AssetState := ⟨false, false, 0, false, 0, 0, 0⟩

/-- A looping song. -/
def songLoop : Song := ⟨"Loop", "Art", ["data", "songs", "l.mp4"], true, 10⟩

/-- A state playing `songLoop` with a non-empty shuffle queue. -/
def stLooping : AppState :=
  { stPlaying with
      current_song := some songLoop
      shuffle_active := true
      shuffle_queue := [songA, songC] }

/-! ## Helper lemmas -/

@[simp] lemma _ensure_song_visible_shuffle_queue (st : AppState) (song : Song) :
    (_ensure_song_visible st song).shuffle_queue = st.shuffle_queue := by
  unfold _ensure_song_visible
  dsimp only
  repeat' split
  all_goals rfl

@[simp] lemma _ensure_song_visible_mixer (st : AppState) (song : Song) :
    (_ensure_song_visible st song).mixer = st.mixer := by
  unfold _ensure_song_visible
  dsimp only
  repeat' split
  all_goals rfl

@[simp] lemma _start_song_true_current_song (st : AppState) (song : Song)
    (pos : ℚ) (imm : Bool) (now : ℚ) :
    (_start_song st song pos imm now true).current_song = some song := by
  simp [_start_song]

@[simp] lemma _start_song_true_position (st : AppState) (song : Song)
    (pos : ℚ) (imm : Bool) (now : ℚ) :
    (_start_song st song pos imm now true).play_start_position =
      _clamp_song_position song pos := by
  simp [_start_song]

@[simp] lemma _start_song_true_paused (st : AppState) (song : Song)
    (pos : ℚ) (imm : Bool) (now : ℚ) :
    (_start_song st song pos imm now true).is_paused = !imm := by
  simp [_start_song]

@[simp] lemma _start_song_true_suppress (st : AppState) (song : Song)
    (pos : ℚ) (imm : Bool) (now : ℚ) :
    (_start_song st song pos imm now true).suppress_end_event = false := by
  simp [_start_song]

@[simp] lemma _start_song_true_pending (st : AppState) (song : Song)
    (pos : ℚ) (imm : Bool) (now : ℚ) :
    (_start_song st song pos imm now true).mixer.pending_end = 0 := by
  unfold _start_song resetAudioDevice mixerPlay mixerPause
  simp only [Bool.not_true, Bool.false_eq_true, if_false]
  split <;> rfl

@[simp] lemma _start_song_true_queue (st : AppState) (song : Song)
    (pos : ℚ) (imm : Bool) (now : ℚ) :
    (_start_song st song pos imm now true).shuffle_queue =
      if song ∈ st.shuffle_queue then st.shuffle_queue.filter (fun item => item ≠ song)
      else st.shuffle_queue := by
  simp [_start_song, resetAudioDevice]

@[simp] lemma _clamp_song_position_zero (song : Song) :
    _clamp_song_position song 0 = 0 := by
  unfold _clamp_song_position
  split
  · rfl
  · simp

@[simp] lemma play_song_current_song (st : AppState) (song : Song) (pq : Bool) (now : ℚ) :
    (play_song st song pq now true).current_song = some song := by
  unfold play_song
  split <;> simp

@[simp] lemma play_song_position (st : AppState) (song : Song) (pq : Bool) (now : ℚ) :
    (play_song st song pq now true).play_start_position = 0 := by
  unfold play_song
  split <;> simp

@[simp] lemma play_song_paused (st : AppState) (song : Song) (pq : Bool) (now : ℚ) :
    (play_song st song pq now true).is_paused = false := by
  unfold play_song
  split <;> simp

@[simp] lemma play_song_preserve_queue (st : AppState) (song : Song) (now : ℚ) :
    (play_song st song true now true).shuffle_queue =
      if song ∈ st.shuffle_queue then st.shuffle_queue.filter (fun item => item ≠ song)
      else st.shuffle_queue := by
  unfold play_song
  simp

@[simp] lemma stop_song_current_song (st : AppState) : (stop_song st).current_song = none := rfl

@[simp] lemma stop_song_busy (st : AppState) : (stop_song st).mixer.busy = false := by
  unfold stop_song resetAudioDevice mixerStop
  split <;> rfl

/-- `addCandidate` leaves the first element of the accumulator in place. -/
lemma addCandidate_cons (x : List String) (t : List (List String)) (c : List String) :
    ∃ t', addCandidate (x :: t) c = x :: t' := by
  unfold addCandidate
  split
  · exact ⟨t, rfl⟩
  · exact ⟨t ++ [c], rfl⟩

/-- `addCandidate` leaves the first two elements of the accumulator in place. -/
lemma addCandidate_cons₂ (x y : List String) (t : List (List String)) (c : List String) :
    ∃ t', addCandidate (x :: y :: t) c = x :: y :: t' := by
  unfold addCandidate
  split
  · exact ⟨t, rfl⟩
  · exact ⟨t ++ [c], rfl⟩

/-! ## Claim theorems -/

/-- C10: for every transport state, the reported current playback position
never exceeds the current song's duration — while playing the anchor-projected
position (anchor position plus elapsed wall time) is capped at the duration,
while paused the frozen position is capped at the duration — and with no
current song the position is 0. -/
theorem playback_position_bounded (st : AppState) (now : ℚ) :
    (∀ s : Song, st.current_song = some s → _current_playback_time st now ≤ s.duration) ∧
    (st.current_song = none → _current_playback_time st now = 0) := by
  constructor
  · intro s hs
    unfold _current_playback_time
    rw [hs]
    dsimp only
    split
    · exact min_le_right _ _
    · exact min_le_left _ _
  · intro h
    unfold _current_playback_time
    rw [h]

/-- Witness for C10: concrete states hitting both hypotheses of
`playback_position_bounded`. -/
theorem playback_position_bounded_witness :
    _current_playback_time stPlaying 5000 ≤ songB.duration ∧
    _current_playback_time { stPlaying with current_song := none } 5000 = 0 :=
  ⟨(playback_position_bounded stPlaying 5000).1 songB rfl,
   (playback_position_bounded { stPlaying with current_song := none } 5000).2 rfl⟩

/-- C5: if `loop_enabled` is set on the current song, a non-suppressed
end-of-track signal restarts that same song from position 0 (playing, not
paused), regardless of the shuffle queue: the loop branch is taken before the
shuffle-queue branch. -/
theorem loop_precedence (st : AppState) (s : Song) (now : ℚ)
    (hsup : st.suppress_end_event = false)
    (hcur : st.current_song = some s)
    (hloop : s.loop_enabled = true) :
    (_handle_song_end st now true).current_song = some s ∧
    (_handle_song_end st now true).play_start_position = 0 ∧
    (_handle_song_end st now true).is_paused = false := by
  unfold _handle_song_end
  rw [hsup, hcur]
  simp [hloop]

/-- Witness for C5: a non-suppressed end-of-track with a looping current song
and a non-empty shuffle queue restarts the same song at 0. -/
theorem loop_precedence_witness :
    (_handle_song_end stLooping 0 true).current_song = some songLoop ∧
    (_handle_song_end stLooping 0 true).play_start_position = 0 ∧
    (_handle_song_end stLooping 0 true).is_paused = false :=
  loop_precedence stLooping songLoop 0 rfl rfl rfl

/-- C1 counterexample: with audio playing (`mixer.busy = true`), a track
switch via `_start_song` returns with the suppression flag cleared, not set —
`_start_song` resets `suppress_end_event` in its `finally` block, and
`stop_song` likewise assigns it `False` before returning.  So it is false
that "after such a call returns, the suppression flag is set". -/
theorem end_event_suppression_cex :
    stPlaying.mixer.busy = true ∧
    (_start_song stPlaying songA 0 true 0 true).suppress_end_event = false ∧
    (stop_song stPlaying).suppress_end_event = false := by
  exact ⟨rfl, by decide, rfl⟩

/-- C1 amended: every call that stops or reloads the device raises the
suppression flag only transiently (while the device is reset), clears every
pending end-of-track notification from the event queue, and lowers the flag
again before returning; the spurious notification caused by a programmatic
stop or track switch is thereby removed from the queue rather than consumed
later.  If `_handle_song_end` does run while the flag is raised, it consumes
the flag and changes nothing else (no advance). -/
theorem end_event_suppression (st : AppState) (song : Song) (pos : ℚ) (imm : Bool)
    (now : ℚ) (st' : AppState) :
    (resetAudioDevice st).suppress_end_event = (st.suppress_end_event || st.mixer.busy) ∧
    (resetAudioDevice st).mixer.pending_end = 0 ∧
    (_start_song st song pos imm now true).suppress_end_event = false ∧
    (_start_song st song pos imm now true).mixer.pending_end = 0 ∧
    (stop_song st).suppress_end_event = false ∧
    (stop_song st).mixer.pending_end = 0 ∧
    (st'.suppress_end_event = true →
      _handle_song_end st' now true = { st' with suppress_end_event := false }) := by
  refine ⟨rfl, rfl, by simp, by simp, rfl, rfl, ?_⟩
  intro h
  unfold _handle_song_end
  rw [h]
  simp

/-- Witness for C1 (amended): concrete busy state; a suppressed-state
`_handle_song_end` only clears the flag. -/
theorem end_event_suppression_witness :
    (_start_song stPlaying songA 0 true 0 true).mixer.pending_end = 0 ∧
    _handle_song_end { stPlaying with suppress_end_event := true } 0 true =
      { { stPlaying with suppress_end_event := true } with suppress_end_event := false } :=
  ⟨(end_event_suppression stPlaying songA 0 true 0 stPlaying).2.2.2.1,
   (end_event_suppression stPlaying songA 0 true 0
      { stPlaying with suppress_end_event := true }).2.2.2.2.2.2 rfl⟩

/-- `ensure_assets` succeeding leaves the song fully materialized: thumbnail
and audio derivative on disk, assets prepared, positive duration, and at most
one audio write performed. -/
lemma ensure_assets_ok_fields (d : ℚ) (ha : Bool) (st st₁ : AssetState)
    (h : ensure_assets d ha st = .ok st₁) :
    st₁.thumb_exists = true ∧ st₁.audio_exists = true ∧ st₁.assets_prepared = true ∧
    0 < st₁.duration ∧ st₁.audio_writes ≤ st.audio_writes + 1 := by
  unfold ensure_assets at h
  dsimp only at h
  split at h
  · rename_i hguard
    injection h with h₂
    subst h₂
    simp only [Bool.and_eq_true, Bool.not_not, decide_eq_true_eq] at hguard
    obtain ⟨⟨⟨g1, g2⟩, g3⟩, g4⟩ := hguard
    exact ⟨g1, g2, g3, g4, Nat.le_succ _⟩
  · split at h
    · simp at h
    · rename_i hguard hna
      injection h with h₂
      subst h₂
      simp only [Bool.and_eq_true, Bool.not_eq_true'] at hna
      repeat' split
      all_goals simp_all

/-- A fully materialized song makes `ensure_assets` a no-op. -/
lemma ensure_assets_noop (d : ℚ) (ha : Bool) (st : AssetState)
    (h1 : st.thumb_exists = true) (h2 : st.audio_exists = true)
    (h3 : st.assets_prepared = true) (h4 : 0 < st.duration) :
    ensure_assets d ha st = .ok st := by
  unfold ensure_assets
  rw [if_pos]
  simp [h1, h2, h3, h4]

/-- C8: when the source video has no audio stream and the audio derivative
does not yet exist, `ensure_assets` fails with the no-audio-track error and
aborts without creating the audio derivative or performing any
decode-and-write of the audio track. -/
theorem ensure_assets_no_audio_abort (d : ℚ) (st : AssetState)
    (h : st.audio_exists = false) :
    ∃ st', ensure_assets d false st = .noAudioTrack st' ∧
      st'.audio_exists = false ∧ st'.audio_writes = st.audio_writes := by
  unfold ensure_assets
  simp only [h, Bool.not_false, Bool.and_false, Bool.false_and, Bool.not_true,
    Bool.false_eq_true, if_false, Bool.true_and, Bool.and_true]
  by_cases hthumb : (!st.thumb_exists || !st.assets_prepared) = true
  · rw [if_pos hthumb]
    exact ⟨_, rfl, rfl, rfl⟩
  · rw [if_neg hthumb]
    exact ⟨_, rfl, rfl, rfl⟩

/-- Witness for C8: a fresh song whose source has no audio stream. -/
theorem ensure_assets_no_audio_abort_witness :
    ∃ st', ensure_assets 10 false asset0 = .noAudioTrack st' ∧
      st'.audio_exists = false ∧ st'.audio_writes = asset0.audio_writes :=
  ensure_assets_no_audio_abort 10 asset0 rfl

/-- C7: `ensure_assets` is idempotent — after a successful call, a second
call in succession is a complete no-op (in particular it performs no further
decode or audio write and does not mutate the now-valid duration), the two
calls together write the audio track at most once, and the resulting
duration is positive. -/
theorem ensure_assets_idempotent (d : ℚ) (hasAudio : Bool) (st st₁ : AssetState)
    (h : ensure_assets d hasAudio st = .ok st₁) :
    ensure_assets d hasAudio st₁ = .ok st₁ ∧
    st₁.audio_writes ≤ st.audio_writes + 1 ∧
    0 < st₁.duration := by
  obtain ⟨h1, h2, h3, h4, h5⟩ := ensure_assets_ok_fields d hasAudio st st₁ h
  exact ⟨ensure_assets_noop d hasAudio st₁ h1 h2 h3 h4, h5, h4⟩

/-- Witness for C7: a first `ensure_assets` on a fresh song materializes
everything; the second call is a no-op with at most one audio write total. -/
theorem ensure_assets_idempotent_witness :
    ensure_assets 10 true ⟨true, true, 10, true, 1, 1, 1⟩ = .ok ⟨true, true, 10, true, 1, 1, 1⟩ ∧
    (⟨true, true, 10, true, 1, 1, 1⟩ : AssetState).audio_writes ≤ asset0.audio_writes + 1 ∧
    (0 : ℚ) < (⟨true, true, 10, true, 1, 1, 1⟩ : AssetState).duration :=
  ensure_assets_idempotent 10 true asset0 ⟨true, true, 10, true, 1, 1, 1⟩ (by decide)

/-- C3 counterexample: `songTiny` has positive known duration `1/100`, yet
seeking to ratio 1 starts playback at position `0`, which is neither inside
`[0, duration - 0.05]` (that interval is empty) nor equal to
`duration - 0.05` (which is negative): the claim fails for positive durations
below the 0.05 s guard. -/
theorem seek_clamp_law_cex :
    0 < songTiny.duration ∧
    (seek_song stPlaying songTiny 1 0 true).play_start_position = 0 ∧
    ¬ ((seek_song stPlaying songTiny 1 0 true).play_start_position ≤
        songTiny.duration - 5 / 100) := by
  refine ⟨by norm_num [songTiny], ?_, ?_⟩
  · simp only [seek_song, _start_song_true_position]
    norm_num [_clamp_song_position, songTiny]
  · simp only [seek_song, _start_song_true_position]
    norm_num [_clamp_song_position, songTiny]

/-- C3 amended: for every song whose known duration is at least the 0.05 s
guard and every ratio in `[0, 1]`, `seek_song` yields a playback start
position in `[0, duration - 0.05]`, and for ratio 1 the position is exactly
`duration - 0.05`, not `duration`. -/
theorem seek_clamp_law (st : AppState) (song : Song) (r now : ℚ)
    (hd : 5 / 100 ≤ song.duration) (h0 : 0 ≤ r) (h1 : r ≤ 1) :
    0 ≤ (seek_song st song r now true).play_start_position ∧
    (seek_song st song r now true).play_start_position ≤ song.duration - 5 / 100 ∧
    (r = 1 → (seek_song st song r now true).play_start_position = song.duration - 5 / 100) := by
  have hdpos : (0 : ℚ) < song.duration := lt_of_lt_of_le (by norm_num) hd
  have hguard : (0 : ℚ) ≤ song.duration - 5 / 100 := by linarith
  simp only [seek_song, _start_song_true_position]
  rw [if_pos hdpos]
  rw [min_eq_right h1, max_eq_right h0]
  unfold _clamp_song_position
  dsimp only
  rw [if_neg (not_le.mpr hdpos), max_eq_right hguard]
  refine ⟨le_max_left _ _, ?_, ?_⟩
  · exact max_le hguard (min_le_right _ _)
  · intro hr
    subst hr
    rw [one_mul, min_eq_right (by linarith : song.duration - 5 / 100 ≤ song.duration),
      max_eq_right hguard]

/-- Witness for C3 (amended): seeking halfway into a 10 s song. -/
theorem seek_clamp_law_witness :
    0 ≤ (seek_song stPlaying songB (1 / 2) 0 true).play_start_position ∧
    (seek_song stPlaying songB (1 / 2) 0 true).play_start_position ≤
      songB.duration - 5 / 100 ∧
    ((1 : ℚ) / 2 = 1 →
      (seek_song stPlaying songB (1 / 2) 0 true).play_start_position =
        songB.duration - 5 / 100) :=
  seek_clamp_law stPlaying songB (1 / 2) 0 (by norm_num [songB]) (by norm_num) (by norm_num)

/-- C9 counterexample: resolving an empty reference does not return the
library root (the directory holding the song list document `DATA_PATH` and
cache `CACHE_DIR`, i.e. `cfg.dataRoot`): it returns its `songs` subdirectory,
even on a filesystem where everything (the library root included) exists. -/
theorem resolve_empty_reference_cex :
    resolve_media_path (fun _ => true) cfg0 (.rel []) ≠ cfg0.dataRoot ∧
    DATA_PATH cfg0 = cfg0.dataRoot ++ ["song_data.json"] := by
  exact ⟨by decide, rfl⟩

/-- C9 amended: resolving an empty reference returns the songs media
subdirectory of the library root (`SONGS_DIR = library-root/songs`), not the
library root itself; a whitespace-only reference also resolves to the songs
subdirectory whenever that directory exists on disk. -/
theorem resolve_empty_reference (fs : List String → Bool) (cfg : PathConfig) :
    resolve_media_path fs cfg (.rel []) = SONGS_DIR cfg ∧
    (fs (SONGS_DIR cfg) = true → resolve_media_path fs cfg (.rel [" "]) = SONGS_DIR cfg) := by
  constructor
  · unfold resolve_media_path searchOrder
    have hblank : strBlank (.rel []) = true := rfl
    rw [if_pos hblank]
    unfold addCandidate
    simp only [List.not_mem_nil, if_neg, List.nil_append]
    rcases hfs : fs (SONGS_DIR cfg) with _ | _ <;>
      simp [List.find?, hfs, pyName]
  · intro hfs
    unfold resolve_media_path searchOrder
    have hblank : strBlank (.rel [" "]) = true := by decide
    rw [if_pos hblank]
    unfold addCandidate
    simp only [List.not_mem_nil, if_neg, List.nil_append]
    simp [List.find?, hfs]

/-- Witness for C9 (amended): a filesystem on which the songs directory
exists resolves both the empty and the whitespace-only reference to it. -/
theorem resolve_empty_reference_witness :
    resolve_media_path (fun l => l = SONGS_DIR cfg0) cfg0 (.rel []) = SONGS_DIR cfg0 ∧
    resolve_media_path (fun l => l = SONGS_DIR cfg0) cfg0 (.rel [" "]) = SONGS_DIR cfg0 :=
  ⟨(resolve_empty_reference (fun l => l = SONGS_DIR cfg0) cfg0).1,
   (resolve_empty_reference (fun l => l = SONGS_DIR cfg0) cfg0).2 (by decide)⟩

/-- C6: with shuffle inactive and the current song at index `i` of the
filtered sequence, `play_next_song` selects the element at index `i + 1`;
when the current song is the last element it stops playback (current song
cleared, device idle) instead of wrapping to the first element. -/
theorem play_next_successor (st : AppState) (s : Song) (i : ℕ) (now : ℚ)
    (hsh : st.shuffle_active = false)
    (hcur : st.current_song = some s)
    (hmem : s ∈ st.filtered_songs)
    (hidx : st.filtered_songs.indexOf s = i) :
    (i + 1 < st.filtered_songs.length →
      (play_next_song st now true).current_song = st.filtered_songs[i + 1]?) ∧
    (i + 1 = st.filtered_songs.length →
      (play_next_song st now true).current_song = none ∧
      (play_next_song st now true).mixer.busy = false) := by
  obtain ⟨sgs, filt, vis, qry, cur, ip, tk, pp, sha, sq, sup, mx, vl, vf⟩ := st
  dsimp only at hsh hcur hmem hidx ⊢
  subst hsh hcur hidx
  cases filt with
  | nil => exact absurd hmem (List.not_mem_nil s)
  | cons first tail =>
    constructor
    · intro hlt
      dsimp only [play_next_song]
      rw [if_pos hmem,
        if_neg (by omega : ¬ (first :: tail).length ≤ (first :: tail).indexOf s + 1)]
      obtain ⟨x, hget⟩ : ∃ x, (first :: tail)[(first :: tail).indexOf s + 1]? = some x :=
        ⟨_, List.getElem?_eq_getElem hlt⟩
      rw [hget]
      dsimp only
      rw [play_song_current_song, ← hget]
    · intro hlen
      dsimp only [play_next_song]
      rw [if_pos hmem,
        if_pos (by omega : (first :: tail).length ≤ (first :: tail).indexOf s + 1)]
      simp only [Bool.not_false, if_true]
      refine ⟨rfl, ?_⟩
      simp only [stop_song, resetAudioDevice, mixerStop, mixerDisableEndEvent,
        mixerClearEndEvents, mixerEnableEndEvent]
      split <;> rfl

/-- Witness for C6: filtered sequence `[A, B, C]`; from current `B` the next
selection is `C`; from current `C` playback stops and does not wrap to `A`. -/
theorem play_next_successor_witness :
    (play_next_song stPlaying 0 true).current_song = [songA, songB, songC][2]? ∧
    (play_next_song { stPlaying with current_song := some songC } 0 true).current_song = none := by
  constructor
  · exact (play_next_successor stPlaying songB 1 0 rfl rfl (by decide) (by decide)).1 (by decide)
  · exact ((play_next_successor { stPlaying with current_song := some songC } songC 2 0
      rfl rfl (by decide) (by decide)).2 (by decide)).1

/-- C4: immediately after `start_shuffle` (with any permutation of the
non-empty search-filtered set as the shuffle outcome, on the success path),
the current song is not a member of the shuffle queue; and when the filtered
set has no duplicate entries, the queue together with the current song is a
permutation of the search-filtered set, with no duplicates. -/
theorem start_shuffle_queue_invariant (st : AppState) (shuffled : List Song) (now : ℚ)
    (hperm : shuffled.Perm (_search_base st))
    (hne : _search_base st ≠ []) :
    ∃ cur, (start_shuffle st shuffled now true).current_song = some cur ∧
      cur ∉ (start_shuffle st shuffled now true).shuffle_queue ∧
      ((_search_base st).Nodup →
        (cur :: (start_shuffle st shuffled now true).shuffle_queue).Perm (_search_base st) ∧
        (cur :: (start_shuffle st shuffled now true).shuffle_queue).Nodup) := by
  cases shuffled with
  | nil => exact absurd hperm.nil_eq.symm hne
  | cons first rest =>
    simp only [start_shuffle, if_neg hne]
    refine ⟨first, play_song_current_song _ _ _ _, ?_, ?_⟩
    · rw [play_song_preserve_queue]
      dsimp only
      by_cases hmem : first ∈ rest
      · rw [if_pos hmem]
        intro hc
        simp at hc
      · rw [if_neg hmem]
        exact hmem
    · intro hnd
      have hnd' : (first :: rest).Nodup := hperm.nodup_iff.mpr hnd
      have hnotmem : first ∉ rest := (List.nodup_cons.mp hnd').1
      rw [play_song_preserve_queue]
      dsimp only
      rw [if_neg hnotmem]
      exact ⟨hperm, hnd'⟩

/-- Witness for C4: shuffling the library `[A, B, C]` into `[C, A, B]`. -/
theorem start_shuffle_queue_invariant_witness :
    ∃ cur, (start_shuffle stPlaying [songC, songA, songB] 0 true).current_song = some cur ∧
      cur ∉ (start_shuffle stPlaying [songC, songA, songB] 0 true).shuffle_queue ∧
      ((_search_base stPlaying).Nodup →
        (cur :: (start_shuffle stPlaying [songC, songA, songB] 0 true).shuffle_queue).Perm
          (_search_base stPlaying) ∧
        (cur :: (start_shuffle stPlaying [songC, songA, songB] 0 true).shuffle_queue).Nodup) :=
  start_shuffle_queue_invariant stPlaying [songC, songA, songB] 0 (by decide) (by decide)

/-- The candidate list for a stored reference `songs/r0/…` starts with the
shadow candidate `SONGS_DIR/songs/r0/…` followed by the stripped candidate
`SONGS_DIR/r0/…`. -/
lemma searchOrder_songs_rel (cfg : PathConfig) (r0 : String) (rtail : List String) :
    ∃ t, searchOrder cfg (.rel ("songs" :: r0 :: rtail)) =
      (SONGS_DIR cfg ++ "songs" :: r0 :: rtail) :: (SONGS_DIR cfg ++ r0 :: rtail) :: t := by
  have hmem : (SONGS_DIR cfg ++ r0 :: rtail) ∉ [SONGS_DIR cfg ++ "songs" :: r0 :: rtail] := by
    simp only [List.mem_singleton]
    intro h
    have hlen := congrArg List.length h
    simp [List.length_append] at hlen
  have hl1 : addCandidate [] (SONGS_DIR cfg ++ "songs" :: r0 :: rtail) =
      [SONGS_DIR cfg ++ "songs" :: r0 :: rtail] := by
    simp [addCandidate]
  have hl2 : addCandidate [SONGS_DIR cfg ++ "songs" :: r0 :: rtail]
      (SONGS_DIR cfg ++ r0 :: rtail) =
      [SONGS_DIR cfg ++ "songs" :: r0 :: rtail, SONGS_DIR cfg ++ r0 :: rtail] := by
    unfold addCandidate
    rw [if_neg hmem]
    rfl
  unfold searchOrder
  rw [if_neg (by simp [strBlank])]
  dsimp only
  rw [hl1,
    if_pos (show pyLower "songs" = "songs" ∧ r0 :: rtail ≠ [] from ⟨by decide, by simp⟩),
    hl2]
  obtain ⟨t3, h3⟩ := addCandidate_cons₂ (SONGS_DIR cfg ++ "songs" :: r0 :: rtail)
    (SONGS_DIR cfg ++ r0 :: rtail) [] (cfg.appRoot ++ "songs" :: r0 :: rtail)
  rw [h3]
  obtain ⟨t4, h4⟩ := addCandidate_cons₂ (SONGS_DIR cfg ++ "songs" :: r0 :: rtail)
    (SONGS_DIR cfg ++ r0 :: rtail) t3 (DEFAULT_SONGS_DIR cfg ++ "songs" :: r0 :: rtail)
  rw [h4]
  by_cases hnm : pyName (.rel ("songs" :: r0 :: rtail)) ≠ ""
  · rw [if_pos hnm]
    obtain ⟨t5, h5⟩ := addCandidate_cons₂ (SONGS_DIR cfg ++ "songs" :: r0 :: rtail)
      (SONGS_DIR cfg ++ r0 :: rtail) t4 (SONGS_DIR cfg ++ [pyName (.rel ("songs" :: r0 :: rtail))])
    rw [h5]
    obtain ⟨t6, h6⟩ := addCandidate_cons₂ (SONGS_DIR cfg ++ "songs" :: r0 :: rtail)
      (SONGS_DIR cfg ++ r0 :: rtail) t5
      (DEFAULT_SONGS_DIR cfg ++ [pyName (.rel ("songs" :: r0 :: rtail))])
    rw [h6]
    exact ⟨t6, rfl⟩
  · rw [if_neg hnm]
    exact ⟨t4, rfl⟩

/-- The candidate list for an absolute stored reference starts with the
reference itself. -/
lemma searchOrder_abs (cfg : PathConfig) (p : List String) :
    ∃ t, searchOrder cfg (.abs p) = p :: t := by
  unfold searchOrder
  rw [if_neg (by simp [strBlank])]
  dsimp only
  rw [show addCandidate [] p = [p] from by simp [addCandidate]]
  by_cases hnm : pyName (.abs p) ≠ ""
  · rw [if_pos hnm]
    obtain ⟨t1, h1⟩ := addCandidate_cons p [] (SONGS_DIR cfg ++ [pyName (.abs p)])
    rw [h1]
    obtain ⟨t2, h2⟩ := addCandidate_cons p t1 (DEFAULT_SONGS_DIR cfg ++ [pyName (.abs p)])
    rw [h2]
    exact ⟨t2, rfl⟩
  · rw [if_neg hnm]
    exact ⟨[], rfl⟩

/-- C2 counterexample: `pNested` is strictly inside the library root (under
its songs directory) and exists on disk, yet on a filesystem where the
higher-priority candidate `songs-dir/songs/sub/x.mp4` also exists, resolving
the serialized reference returns that shadow path, not `pNested`: the
round-trip contract fails as stated. -/
theorem serialize_resolve_roundtrip_cex :
    fsShadow pNested = true ∧
    (SONGS_DIR cfg0).isPrefixOf pNested = true ∧
    resolve_media_path fsShadow cfg0 (_serialize_media_path cfg0 pNested) = pShadow ∧
    pShadow ≠ pNested := by
  exact ⟨by decide, by decide, by decide, by decide⟩

/-- C2 amended: `resolve(serialize(p)) = p` holds for every path `p` strictly
inside the library root that exists on disk, provided `p` is not the songs
directory itself and, when `p` lies under the songs directory at relative
path `rel`, the earlier-priority shadow candidate `songs-dir/songs/rel` does
not exist. -/
theorem serialize_resolve_roundtrip (fs : List String → Bool) (cfg : PathConfig)
    (p : List String) (hp : fs p = true) (hne : p ≠ SONGS_DIR cfg)
    (hshadow : ∀ rel, p = SONGS_DIR cfg ++ rel →
      fs (SONGS_DIR cfg ++ "songs" :: rel) = false) :
    resolve_media_path fs cfg (_serialize_media_path cfg p) = p := by
  unfold _serialize_media_path
  by_cases hpre : (SONGS_DIR cfg).isPrefixOf p
  · rw [if_pos hpre]
    obtain ⟨rel, hrel⟩ : ∃ rel, p = SONGS_DIR cfg ++ rel := by
      obtain ⟨t, ht⟩ := List.isPrefixOf_iff_prefix.mp hpre
      exact ⟨t, ht.symm⟩
    have hdrop : p.drop (SONGS_DIR cfg).length = rel := by
      rw [hrel]
      exact List.drop_left _ _
    rw [hdrop]
    have hrelne : rel ≠ [] := by
      intro h
      exact hne (by rw [hrel, h, List.append_nil])
    obtain ⟨r0, rtail, hr⟩ := List.exists_cons_of_ne_nil hrelne
    subst hr
    obtain ⟨t, ht⟩ := searchOrder_songs_rel cfg r0 rtail
    unfold resolve_media_path
    rw [ht]
    rw [List.find?_cons_of_neg _ (by simp [hshadow (r0 :: rtail) hrel])]
    rw [List.find?_cons_of_pos _ (show fs (SONGS_DIR cfg ++ r0 :: rtail) from by
      rw [← hrel]; exact hp)]
    dsimp only
    exact hrel.symm
  · rw [if_neg hpre]
    obtain ⟨t, ht⟩ := searchOrder_abs cfg p
    unfold resolve_media_path
    rw [ht, List.find?_cons_of_pos _ hp]

/-- Witness for C2 (amended): a file under the songs directory, on a
filesystem containing exactly that file, round-trips. -/
theorem serialize_resolve_roundtrip_witness :
    resolve_media_path fsOnly cfg0 (_serialize_media_path cfg0 pNested) = pNested := by
  apply serialize_resolve_roundtrip fsOnly cfg0 pNested (by decide) (by decide)
  intro rel h
  have hrel : rel = ["sub", "x.mp4"] := by
    have : SONGS_DIR cfg0 ++ rel = SONGS_DIR cfg0 ++ ["sub", "x.mp4"] := by
      rw [← h]
      decide
    exact List.append_cancel_left this
  subst hrel
  decide

end CPify
